import Mathlib

/-!
Verification of the resilient integration-client framework in
`src/lib/error-handling/integration-patterns.ts` (circuit breaker, retry
with backoff, error classification, integration client base class).

The TypeScript is shallowly embedded: classes become structures plus pure
step functions, `Date.now()` reads become explicit `now : Nat` parameters
(all reads within one call are modelled at a single instant), promises /
thrown exceptions become `Except`, the mutable per-client state (breaker
state, error log, emitted events) is threaded explicitly, and
`Math.random()` jitter is modelled by an explicit offset stream that is
only consulted when `jitter` is enabled.
-/

namespace Paintbox

/-- Character-list prefix test, used to embed JavaScript
`String.prototype.includes`. -/
def isPrefixList : List Char → List Char → Bool
  | [], _ => true
  | _ :: _, [] => false
  | a :: as, b :: bs => a = b && isPrefixList as bs

/-- Substring search on character lists. -/
def containsAux (pat : List Char) : List Char → Bool
  | [] => isPrefixList pat []
  | c :: cs => isPrefixList pat (c :: cs) || containsAux pat cs

/-- JavaScript `s.includes(pat)`: case-sensitive substring containment. -/
def containsSub (s pat : String) : Bool :=
  containsAux pat.data s.data

/-- JavaScript `s.toLowerCase()` (ASCII case folding suffices for the
pattern terms used by the classifier). -/
def lowerStr (s : String) : String :=
  String.mk (s.data.map Char.toLower)

-- =====================================
-- TYPES (integration-patterns.ts lines 12-64)
-- =====================================

/-- The `IntegrationError['errorType']` union
(integration-patterns.ts line 40). -/
inductive ErrorType
  | timeout
  | connection_error
  | authentication_error
  | rate_limit
  | server_error
  | validation_error
deriving DecidableEq, Repr

/-- A transport-level response attached to a thrown error
(`error.response` as consumed by `classifyError` and
`createIntegrationError`). JavaScript truthiness of `response?.status`
is modelled by treating status `0` as absent. -/
structure JsResponse where
  status : Nat
  headers : List (String × String)
  data : Option String
deriving DecidableEq, Repr

/-- A thrown JavaScript error as consumed by the framework: its
`message` (absent modelled as `""`, matching `error?.message ?? ''`),
optional attached `response`, and optional `code`. -/
structure JsError where
  message : String
  response : Option JsResponse
  code : Option String
deriving DecidableEq, Repr

/-- Embeds `RetryConfig` (integration-patterns.ts lines 12-18).
Delays and the multiplier are naturals; the claims under verification use
integer-valued configurations. -/
structure RetryConfig where
  maxAttempts : Nat
  baseDelay : Nat
  maxDelay : Nat
  backoffMultiplier : Nat
  jitter : Bool
deriving DecidableEq, Repr

/-- Embeds `CircuitBreakerConfig` (integration-patterns.ts lines 20-25). -/
structure CircuitBreakerConfig where
  enabled : Bool
  failureThreshold : Nat
  resetTimeout : Nat
  monitoringWindow : Nat
deriving DecidableEq, Repr

-- =====================================
-- ERROR CLASSIFIER (integration-patterns.ts lines 233-317)
-- =====================================

/-- Timeout message terms checked by `classifyError` (line 254). -/
def timeoutTerms (m : String) : Bool :=
  containsSub m "timeout" || containsSub m "timed out"

/-- Connection/network message terms checked by `classifyError`
(lines 258-261). -/
def connectionTerms (m : String) : Bool :=
  containsSub m "connection" || containsSub m "network" ||
  containsSub m "econnreset" || containsSub m "econnrefused"

/-- Authentication message terms checked by `classifyError`
(lines 265-267). -/
def authTerms (m : String) : Bool :=
  containsSub m "auth" || containsSub m "unauthorized" || containsSub m "forbidden"

/-- Rate-limit message terms checked by `classifyError` (lines 271-272). -/
def rateLimitTerms (m : String) : Bool :=
  containsSub m "rate limit" || containsSub m "too many requests"

/-- Embeds `ErrorClassifier.classifyError` (integration-patterns.ts lines
234-278). Status codes are consulted first (`if (response?.status)`:
a response whose status is `0` is falsy and skipped, and a present status
below 400 matches none of the four status branches, so both fall through
to message matching), then the lowercased message is pattern-matched, and
the default is `server_error`. -/
def classifyError (message : String) (response : Option JsResponse) : ErrorType :=
  let byStatus : Option ErrorType :=
    match response with
    | some r =>
      if r.status = 0 then none
      else if r.status = 401 ∨ r.status = 403 then some .authentication_error
      else if r.status = 429 then some .rate_limit
      else if 400 ≤ r.status ∧ r.status < 500 then some .validation_error
      else if 500 ≤ r.status then some .server_error
      else none
    | none => none
  match byStatus with
  | some t => t
  | none =>
    let m := lowerStr message
    if timeoutTerms m then .timeout
    else if connectionTerms m then .connection_error
    else if authTerms m then .authentication_error
    else if rateLimitTerms m then .rate_limit
    else .server_error

/-- Embeds `ErrorClassifier.getErrorSeverity` (lines 280-296). -/
def getErrorSeverity (t : ErrorType) : String :=
  match t with
  | .authentication_error => "critical"
  | .server_error => "high"
  | .timeout => "medium"
  | .connection_error => "medium"
  | .rate_limit => "medium"
  | .validation_error => "low"

/-- Embeds `ErrorClassifier.shouldAlert` (lines 298-316). -/
def shouldAlert (t : ErrorType) (retryCount : Nat) : Bool :=
  if t = .authentication_error then true
  else if t = .server_error ∧ 1 ≤ retryCount then true
  else if (t = .timeout ∨ t = .connection_error) ∧ 3 ≤ retryCount then true
  else false

-- =====================================
-- RETRY MECHANISM (integration-patterns.ts lines 165-227)
-- =====================================

/-- Embeds `RetryHandler.shouldRetry` (lines 196-209): case-sensitive substring
checks on the raw error message; it does not consult `ErrorClassifier`. -/
def shouldRetry (message : String) : Bool :=
  if containsSub message "401" || containsSub message "authentication" then false
  else if containsSub message "400" || containsSub message "validation" then false
  else true

/-- Embeds `RetryHandler.calculateDelay` (lines 211-222). `attempt` is the
1-based number of the failed attempt just recorded. `jitterOffset` stands
for the sampled `(Math.random() - 0.5) * 2 * (delay * 0.25)` perturbation
and is consulted only when `jitter` is enabled; `Int.toNat` is the final
`Math.max(delay, 0)` floor. -/
def calculateDelay (cfg : RetryConfig) (attempt : Nat) (jitterOffset : Int) : Nat :=
  let d : Nat := min (cfg.baseDelay * cfg.backoffMultiplier ^ (attempt - 1)) cfg.maxDelay
  let d2 : Int := if cfg.jitter then (d : Int) + jitterOffset else (d : Int)
  d2.toNat

/-- The `while (attempt < maxAttempts)` loop of `RetryHandler.execute`
(lines 168-194), with the loop bound carried as structural fuel
(`fuel = maxAttempts - attempt` at every call). `op n` is the outcome of
the `(n+1)`-th invocation of the operation; `jos` supplies jitter
offsets. Returns the final outcome (`Except.error none` is the
`throw lastError` reached with no recorded failure, possible only when
`maxAttempts = 0`), the number of invocations, and the list of backoff
delays actually slept. -/
def retryGo (cfg : RetryConfig) (op : Nat → Except JsError α) (jos : Nat → Int) :
    Nat → Nat → Except (Option JsError) α × Nat × List Nat
  | _, 0 => (Except.error none, 0, [])
  | attempt, fuel + 1 =>
    match op attempt with
    | .ok v => (Except.ok v, 1, [])
    | .error e =>
      if shouldRetry e.message = false then (Except.error (some e), 1, [])
      else if attempt + 1 < cfg.maxAttempts then
        let d := calculateDelay cfg (attempt + 1) (jos attempt)
        let r := retryGo cfg op jos (attempt + 1) fuel
        (r.1, r.2.1 + 1, d :: r.2.2)
      else (Except.error (some e), 1, [])

/-- Embeds `RetryHandler.execute` (lines 168-194). -/
def retryExecute (cfg : RetryConfig) (op : Nat → Except JsError α) (jos : Nat → Int) :
    Except (Option JsError) α × Nat × List Nat :=
  retryGo cfg op jos 0 cfg.maxAttempts

-- =====================================
-- CIRCUIT BREAKER (integration-patterns.ts lines 70-159)
-- =====================================

/-- Embeds `CircuitBreakerState` (lines 70-74). -/
inductive CircuitBreakerState
  | CLOSED
  | OPEN
  | HALF_OPEN
deriving DecidableEq, Repr

/-- The mutable fields of class `CircuitBreaker` (lines 77-80), with the
initial values of its field initializers as defaults. -/
structure CircuitBreaker where
  state : CircuitBreakerState := .CLOSED
  failures : Nat := 0
  lastFailureTime : Nat := 0
  successCount : Nat := 0
deriving DecidableEq, Repr

/-- Embeds `CircuitBreaker.onSuccess` (lines 114-125). -/
def CircuitBreaker.onSuccess (cb : CircuitBreaker) : CircuitBreaker :=
  let cb1 : CircuitBreaker := { cb with failures := 0, successCount := cb.successCount + 1 }
  if cb1.state = .HALF_OPEN ∧ 3 ≤ cb1.successCount then
    { cb1 with state := .CLOSED, successCount := 0 }
  else cb1

/-- Embeds `CircuitBreaker.onFailure` (lines 127-137); `now` is the `Date.now()`
read stored into `lastFailureTime`. -/
def CircuitBreaker.onFailure (cfg : CircuitBreakerConfig) (now : Nat)
    (cb : CircuitBreaker) : CircuitBreaker :=
  let cb1 : CircuitBreaker :=
    { cb with failures := cb.failures + 1, lastFailureTime := now, successCount := 0 }
  if cfg.failureThreshold ≤ cb1.failures then { cb1 with state := .OPEN } else cb1

/-- The admission check at the top of `CircuitBreaker.execute`
(lines 95-102): `none` means the call is rejected with the circuit-open
error before the operation is invoked; `some cb1` is the breaker state
under which the operation then runs (the OPEN to HALF_OPEN transition
happens here, before attempting the operation). The elapsed-time test is
done in `Int` to mirror JavaScript number subtraction. -/
def CircuitBreaker.gate (cfg : CircuitBreakerConfig) (cb : CircuitBreaker)
    (now : Nat) : Option CircuitBreaker :=
  if cb.state = .OPEN then
    if (now : Int) - (cb.lastFailureTime : Int) < (cfg.resetTimeout : Int) then none
    else some { cb with state := .HALF_OPEN }
  else some cb

/-- Outcome of one `CircuitBreaker.execute` call: rejected without
invoking the operation, or the operation's own success/failure. -/
inductive CBOutcome
  | rejected
  | succeeded
  | failed
deriving DecidableEq, Repr

/-- Embeds `CircuitBreaker.execute` (lines 90-112) for an operation whose
outcome is `opSucceeds`. Returns the outcome, the breaker state after the
call, and how many times the operation was invoked (0 or 1). When the
breaker is disabled the operation runs without any state bookkeeping. -/
def CircuitBreaker.execute (cfg : CircuitBreakerConfig) (cb : CircuitBreaker)
    (now : Nat) (opSucceeds : Bool) : CBOutcome × CircuitBreaker × Nat :=
  if cfg.enabled = false then
    ((if opSucceeds then .succeeded else .failed), cb, 1)
  else
    match CircuitBreaker.gate cfg cb now with
    | none => (.rejected, cb, 0)
    | some cb1 =>
      if opSucceeds then (.succeeded, cb1.onSuccess, 1)
      else (.failed, CircuitBreaker.onFailure cfg now cb1, 1)

/-- Folds a sequence of `(now, opSucceeds)` calls through
`CircuitBreaker.execute`, yielding the final breaker state. -/
def CircuitBreaker.runTrace (cfg : CircuitBreakerConfig) (cb : CircuitBreaker) :
    List (Nat × Bool) → CircuitBreaker
  | [] => cb
  | (now, okb) :: rest =>
    CircuitBreaker.runTrace cfg (CircuitBreaker.execute cfg cb now okb).2.1 rest

-- =====================================
-- INTEGRATION CLIENT (integration-patterns.ts lines 323-472)
-- =====================================

/-- Embeds `IntegrationEndpoint` (lines 27-35); the service-type union is
embedded as a plain string tag. -/
structure IntegrationEndpoint where
  id : String
  name : String
  serviceType : String
  baseUrl : String
  timeout : Nat
  retryConfig : RetryConfig
  circuitBreakerConfig : CircuitBreakerConfig
deriving DecidableEq, Repr

/-- Embeds `IntegrationRequest` (lines 50-56); `body` and `metadata` are kept
as opaque optional strings (the framework only copies them). -/
structure IntegrationRequest where
  method : String
  path : String
  headers : Option (List (String × String))
  body : Option String
  metadata : Option String
deriving DecidableEq, Repr

/-- The `requestData` snapshot stored in an `IntegrationError`
(lines 404-409). -/
structure RequestData where
  method : String
  path : String
  headers : List (String × String)
  metadata : Option String
deriving DecidableEq, Repr

/-- The `responseData` snapshot stored in an `IntegrationError`
(lines 410-414). -/
structure ResponseData where
  status : Nat
  headers : List (String × String)
  data : Option String
deriving DecidableEq, Repr

/-- Embeds `IntegrationError` (lines 37-48); `occurredAt` is a `Date.now()`
timestamp. -/
structure IntegrationError where
  id : String
  endpointId : String
  errorType : ErrorType
  errorCode : Option String
  message : String
  requestData : RequestData
  responseData : Option ResponseData
  retryCount : Nat
  occurredAt : Nat
  resolved : Bool
deriving DecidableEq, Repr

/-- The `sensitiveHeaders` list of `IntegrationClient.sanitizeHeaders`
(line 425). -/
def sensitiveHeaders : List String := ["authorization", "x-api-key", "cookie"]

/-- Embeds `IntegrationClient.sanitizeHeaders` (lines 421-433). The JavaScript
iterates the sensitive names and overwrites `sanitized[header]` only when
the current value is truthy (`if (sanitized[header])`), so an entry whose
value is the empty string is left unchanged; over an object (unique keys)
this is the per-entry map below. -/
def sanitizeHeaders (headers : List (String × String)) : List (String × String) :=
  headers.map (fun kv =>
    if kv.1 ∈ sensitiveHeaders ∧ kv.2 ≠ "" then (kv.1, "[REDACTED]") else kv)

/-- Embeds `IntegrationClient.createIntegrationError` (lines 390-419).
`error.response?.status?.toString() || error.code` becomes: the decimal
rendering of the status when a response is present (any `Nat` status
renders to a nonempty, truthy string), else the error's `code`. -/
def createIntegrationError (endpointId : String) (e : JsError)
    (request : IntegrationRequest) (requestId : String) (retryCount : Nat)
    (now : Nat) : IntegrationError :=
  { id := requestId
    endpointId := endpointId
    errorType := classifyError e.message e.response
    errorCode :=
      match e.response with
      | some r => some (toString r.status)
      | none => e.code
    message := if e.message = "" then "Unknown error" else e.message
    requestData :=
      { method := request.method
        path := request.path
        headers := sanitizeHeaders (request.headers.getD [])
        metadata := request.metadata }
    responseData := e.response.map (fun r =>
      { status := r.status, headers := r.headers, data := r.data })
    retryCount := retryCount
    occurredAt := now
    resolved := false }

/-- Embeds `Map.set` on the request log (`requestLog.set(id, error)`, line 436):
replace the entry in place when the key is present (a JavaScript `Map`
holds at most one entry per key), append otherwise. -/
def logSet : List (String × IntegrationError) → String → IntegrationError →
    List (String × IntegrationError)
  | [], k, v => [(k, v)]
  | p :: t, k, v => if p.1 = k then (k, v) :: t else p :: logSet t k v

/-- Embeds `Map.get` on the request log. -/
def logGet (log : List (String × IntegrationError)) (k : String) :
    Option IntegrationError :=
  (log.find? (fun kv => kv.1 = k)).map (fun kv => kv.2)

/-- Number of entries of the request log stored under key `k`. -/
def countKey (log : List (String × IntegrationError)) (k : String) : Nat :=
  (log.filter (fun kv => kv.1 = k)).length

/-- The per-client mutable monitoring state of `IntegrationClient`: the
`requestLog` map and, in emission order, the `integrationError` and
`integrationAlert` events emitted so far. -/
structure MRState where
  log : List (String × IntegrationError)
  events : List IntegrationError
  alerts : List IntegrationError
deriving DecidableEq, Repr

/-- Embeds `IntegrationClient.logError` (lines 435-448): store the error under
its id, emit `integrationError`, and emit `integrationAlert` when
`shouldAlert` says so. -/
def logError (st : MRState) (e : IntegrationError) : MRState :=
  { log := logSet st.log e.id e
    events := st.events ++ [e]
    alerts := if shouldAlert e.errorType e.retryCount then st.alerts ++ [e] else st.alerts }

/-- The retry loop of `makeRequest` (lines 346-368): `retryGo` with the
client's `operation` closure (lines 346-360) inlined — each invocation
increments the attempt counter, runs the transport (`transport n` is the
outcome of the `(n+1)`-th `executeRequest` call), and on failure builds
an `IntegrationError` with `retryCount = attempts - 1`, logs it, and
rethrows. Returns the retry outcome, the number of invocations, the
monitoring state, and the client's `lastError` variable. The backoff
sleep changes no client state and is therefore not recorded here. -/
def mrGo (ep : IntegrationEndpoint) (request : IntegrationRequest)
    (requestId : String) (transport : Nat → Except JsError α) (jos : Nat → Int)
    (now : Nat) :
    Nat → Nat → MRState →
    Except (Option JsError) α × Nat × MRState × Option IntegrationError
  | _, 0, st => (Except.error none, 0, st, none)
  | attempt, fuel + 1, st =>
    match transport attempt with
    | .ok v => (Except.ok v, 1, st, none)
    | .error e =>
      let ie := createIntegrationError ep.id e request requestId attempt now
      let st1 := logError st ie
      if shouldRetry e.message = false then (Except.error (some e), 1, st1, some ie)
      else if attempt + 1 < ep.retryConfig.maxAttempts then
        let r := mrGo ep request requestId transport jos now (attempt + 1) fuel st1
        (r.1, r.2.1 + 1, r.2.2.1,
          match r.2.2.2 with
          | some x => some x
          | none => some ie)
      else (Except.error (some e), 1, st1, some ie)

/-- Embeds `IntegrationResponse` (lines 58-64). -/
structure IntegrationResponse (α : Type) where
  success : Bool
  data : Option α
  error : Option IntegrationError
  attempts : Nat
  totalTime : Nat
deriving DecidableEq, Repr

/-- Embeds `IntegrationClient.makeRequest` (lines 340-386): the retry loop
wrapped in `CircuitBreaker.execute`. All `Date.now()` reads of the call
are modelled at the single instant `now` (so `totalTime = 0`). When the
breaker is enabled and the gate rejects the call, the circuit-open error
thrown by the breaker is caught by the outer handler with `lastError`
still `undefined`, yielding `success = false` with no error attached;
when the gate admits the call the breaker's `onSuccess`/`onFailure`
bookkeeping runs on the retry loop's overall outcome. -/
def makeRequest (ep : IntegrationEndpoint) (cb : CircuitBreaker)
    (request : IntegrationRequest) (requestId : String)
    (transport : Nat → Except JsError α) (jos : Nat → Int) (now : Nat)
    (st : MRState) : IntegrationResponse α × CircuitBreaker × MRState :=
  let cfg := ep.circuitBreakerConfig
  if cfg.enabled = false then
    let z := mrGo ep request requestId transport jos now 0 ep.retryConfig.maxAttempts st
    match z.1 with
    | .ok v =>
      ({ success := true, data := some v, error := none, attempts := z.2.1,
         totalTime := 0 }, cb, z.2.2.1)
    | .error _ =>
      ({ success := false, data := none, error := z.2.2.2, attempts := z.2.1,
         totalTime := 0 }, cb, z.2.2.1)
  else
    match CircuitBreaker.gate cfg cb now with
    | none =>
      ({ success := false, data := none, error := none, attempts := 0,
         totalTime := 0 }, cb, st)
    | some cb1 =>
      let z := mrGo ep request requestId transport jos now 0 ep.retryConfig.maxAttempts st
      match z.1 with
      | .ok v =>
        ({ success := true, data := some v, error := none, attempts := z.2.1,
           totalTime := 0 }, cb1.onSuccess, z.2.2.1)
      | .error _ =>
        ({ success := false, data := none, error := z.2.2.2, attempts := z.2.1,
           totalTime := 0 }, CircuitBreaker.onFailure cfg now cb1, z.2.2.1)

-- =====================================
-- THEOREMS: CIRCUIT BREAKER (C3, C4, C5, C6)
-- =====================================

/-- C3: whenever `CircuitBreaker.execute` is called while the state is
OPEN (breaker enabled): if `now - lastFailureTime < resetTimeout` the
call fails immediately as rejected, the breaker is unchanged, and the
operation is never invoked (0 invocations); otherwise the admission gate
transitions the state to HALF_OPEN before attempting, and the operation
is invoked exactly once for that call. -/
theorem C3_open_gate (cfg : CircuitBreakerConfig) (cb : CircuitBreaker)
    (now : Nat) (opSucceeds : Bool)
    (hen : cfg.enabled = true) (hst : cb.state = .OPEN) :
    (((now : Int) - (cb.lastFailureTime : Int) < (cfg.resetTimeout : Int)) →
      CircuitBreaker.execute cfg cb now opSucceeds = (.rejected, cb, 0)) ∧
    (¬ ((now : Int) - (cb.lastFailureTime : Int) < (cfg.resetTimeout : Int)) →
      CircuitBreaker.gate cfg cb now = some { cb with state := .HALF_OPEN } ∧
      (CircuitBreaker.execute cfg cb now opSucceeds).2.2 = 1) := by
  constructor
  · intro hlt
    simp [CircuitBreaker.execute, CircuitBreaker.gate, hen, hst, hlt]
  · intro hge
    refine ⟨by simp [CircuitBreaker.gate, hst, hge], ?_⟩
    cases opSucceeds <;>
      simp [CircuitBreaker.execute, CircuitBreaker.gate, hen, hst, hge]

/-- Witness for C3 at a concrete OPEN breaker: a call 50ms after the last
failure (resetTimeout 60000) is rejected with zero invocations, and a
call 69900ms after it transitions to HALF_OPEN and invokes once. -/
theorem C3_open_gate_witness :
    (CircuitBreaker.execute ⟨true, 5, 60000, 0⟩ ⟨.OPEN, 5, 100, 0⟩ 150 true =
      (.rejected, ⟨.OPEN, 5, 100, 0⟩, 0)) ∧
    (CircuitBreaker.gate ⟨true, 5, 60000, 0⟩ ⟨.OPEN, 5, 100, 0⟩ 70000 =
      some ⟨.HALF_OPEN, 5, 100, 0⟩ ∧
     (CircuitBreaker.execute ⟨true, 5, 60000, 0⟩ ⟨.OPEN, 5, 100, 0⟩ 70000 true).2.2 = 1) :=
  ⟨(C3_open_gate _ _ _ _ rfl rfl).1 (by decide),
   (C3_open_gate _ _ _ _ rfl rfl).2 (by decide)⟩

/-- From a CLOSED breaker, a run of consecutive failures that stays below
the threshold keeps the breaker CLOSED with the failure count
accumulated; the failure that reaches the threshold opens it and records
that failure's time. -/
theorem C4_aux (cfg : CircuitBreakerConfig) :
    ∀ (ts : List Nat) (t : Nat) (cb : CircuitBreaker),
    cfg.enabled = true → cb.state = .CLOSED →
    cb.failures + ts.length + 1 = cfg.failureThreshold →
    CircuitBreaker.runTrace cfg cb ((ts ++ [t]).map (fun x => (x, false))) =
      { state := .OPEN, failures := cfg.failureThreshold, lastFailureTime := t,
        successCount := 0 } := by
  intro ts
  induction ts with
  | nil =>
    intro t cb hen hst hcount
    have hthr : cfg.failureThreshold ≤ cb.failures + 1 := by simp at hcount; omega
    simp [CircuitBreaker.runTrace, CircuitBreaker.execute, CircuitBreaker.gate,
      CircuitBreaker.onFailure, hen, hst, hthr]
    simp at hcount
    omega
  | cons s ts ih =>
    intro t cb hen hst hcount
    have hlt : ¬ cfg.failureThreshold ≤ cb.failures + 1 := by simp at hcount; omega
    have hstep : (CircuitBreaker.execute cfg cb s false).2.1 =
        { state := .CLOSED, failures := cb.failures + 1, lastFailureTime := s,
          successCount := 0 } := by
      simp [CircuitBreaker.execute, CircuitBreaker.gate, CircuitBreaker.onFailure,
        hen, hst, hlt]
    have hrec := ih t ⟨.CLOSED, cb.failures + 1, s, 0⟩ hen rfl
      (by simp at hcount ⊢; omega)
    simpa [CircuitBreaker.runTrace, hstep] using hrec

/-- C4: for an enabled breaker, starting from the initial CLOSED state,
after `failureThreshold` consecutive failed operations (failure times
`ts ++ [t]`) with no intervening success, the breaker state is OPEN,
`lastFailureTime` records the time `t` of the last failure, and the
failure counter equals the threshold. The hypothesis
`ts.length + 1 = failureThreshold` forces `failureThreshold ≥ 1`. -/
theorem C4_consecutive_failures_open (cfg : CircuitBreakerConfig)
    (ts : List Nat) (t : Nat)
    (hen : cfg.enabled = true) (hlen : ts.length + 1 = cfg.failureThreshold) :
    (CircuitBreaker.runTrace cfg {} ((ts ++ [t]).map (fun x => (x, false)))).state = .OPEN ∧
    (CircuitBreaker.runTrace cfg {} ((ts ++ [t]).map (fun x => (x, false)))).lastFailureTime = t ∧
    (CircuitBreaker.runTrace cfg {} ((ts ++ [t]).map (fun x => (x, false)))).failures =
      cfg.failureThreshold := by
  have h := C4_aux cfg ts t {} hen rfl (by simpa using hlen)
  rw [h]
  exact ⟨rfl, rfl, rfl⟩

/-- Witness for C4: with threshold 3, the three failures at times 10, 20,
30 open the breaker and record lastFailureTime 30. -/
theorem C4_consecutive_failures_open_witness :
    (([10, 20] : List Nat).length + 1 =
      (⟨true, 3, 50, 0⟩ : CircuitBreakerConfig).failureThreshold) ∧
    (CircuitBreaker.runTrace ⟨true, 3, 50, 0⟩ {}
      (([10, 20] ++ [30]).map (fun x => (x, false)))).state = .OPEN ∧
    (CircuitBreaker.runTrace ⟨true, 3, 50, 0⟩ {}
      (([10, 20] ++ [30]).map (fun x => (x, false)))).lastFailureTime = 30 :=
  ⟨by decide,
   (C4_consecutive_failures_open ⟨true, 3, 50, 0⟩ [10, 20] 30 rfl (by decide)).1,
   (C4_consecutive_failures_open ⟨true, 3, 50, 0⟩ [10, 20] 30 rfl (by decide)).2.1⟩

/-- C5 fails on the code: a reachable HALF_OPEN state in which the next
operation's failure does not return the breaker to OPEN. With threshold 2
and resetTimeout 10, two failures open the breaker, a probe at time 20
moves it to HALF_OPEN and its success resets the failure counter to 0;
the next operation's failure leaves the state HALF_OPEN (failures = 1 is
below the threshold), not OPEN. -/
theorem C5_counterexample :
    (CircuitBreaker.runTrace ⟨true, 2, 10, 0⟩ {}
      [(0, false), (1, false), (20, true)]).state = .HALF_OPEN ∧
    (CircuitBreaker.runTrace ⟨true, 2, 10, 0⟩ {}
      [(0, false), (1, false), (20, true), (21, false)]).state = .HALF_OPEN ∧
    (CircuitBreaker.runTrace ⟨true, 2, 10, 0⟩ {}
      [(0, false), (1, false), (20, true), (21, false)]).state ≠ .OPEN := by
  refine ⟨by decide, by decide, by decide⟩

/-- C5 amended: in HALF_OPEN (breaker enabled), a failed operation
transitions the breaker to OPEN exactly when the incremented failure
counter reaches the threshold. Failures are not reset on the
OPEN-to-HALF_OPEN transition, so the first probe failure does re-open;
but after a success in HALF_OPEN the failure counter is 0 and a single
failure re-opens only if the threshold is at most 1. -/
theorem C5_amended_half_open_failure (cfg : CircuitBreakerConfig)
    (cb : CircuitBreaker) (now : Nat)
    (hen : cfg.enabled = true) (hst : cb.state = .HALF_OPEN) :
    (CircuitBreaker.execute cfg cb now false).2.1.state = .OPEN ↔
      cfg.failureThreshold ≤ cb.failures + 1 := by
  by_cases hthr : cfg.failureThreshold ≤ cb.failures + 1 <;>
    simp [CircuitBreaker.execute, CircuitBreaker.gate, CircuitBreaker.onFailure,
      hen, hst, hthr]

/-- Witness for the amended C5: a fresh HALF_OPEN probe failure (failure
counter still at the threshold) re-opens the breaker. -/
theorem C5_amended_half_open_failure_witness :
    ((⟨.HALF_OPEN, 2, 0, 0⟩ : CircuitBreaker).state = .HALF_OPEN) ∧
    (CircuitBreaker.execute ⟨true, 2, 10, 0⟩ ⟨.HALF_OPEN, 2, 0, 0⟩ 5 false).2.1.state = .OPEN :=
  ⟨rfl, (C5_amended_half_open_failure ⟨true, 2, 10, 0⟩ ⟨.HALF_OPEN, 2, 0, 0⟩ 5 rfl rfl).mpr
    (by decide)⟩

/-- C6: from any HALF_OPEN state of an enabled breaker, three consecutive
successful operations leave the breaker CLOSED with failure counter 0,
and at the step where it first becomes CLOSED both the failure counter
and the success counter are exactly 0 (the transition resets them). -/
theorem C6_half_open_three_successes (cfg : CircuitBreakerConfig)
    (cb : CircuitBreaker) (t1 t2 t3 : Nat)
    (hen : cfg.enabled = true) (hst : cb.state = .HALF_OPEN) :
    (CircuitBreaker.execute cfg
      (CircuitBreaker.execute cfg
        (CircuitBreaker.execute cfg cb t1 true).2.1 t2 true).2.1 t3 true).2.1.state = .CLOSED ∧
    (CircuitBreaker.execute cfg
      (CircuitBreaker.execute cfg
        (CircuitBreaker.execute cfg cb t1 true).2.1 t2 true).2.1 t3 true).2.1.failures = 0 ∧
    (((CircuitBreaker.execute cfg cb t1 true).2.1.state = .CLOSED ∧
      (CircuitBreaker.execute cfg cb t1 true).2.1.failures = 0 ∧
      (CircuitBreaker.execute cfg cb t1 true).2.1.successCount = 0) ∨
     ((CircuitBreaker.execute cfg cb t1 true).2.1.state = .HALF_OPEN ∧
      (CircuitBreaker.execute cfg
        (CircuitBreaker.execute cfg cb t1 true).2.1 t2 true).2.1.state = .CLOSED ∧
      (CircuitBreaker.execute cfg
        (CircuitBreaker.execute cfg cb t1 true).2.1 t2 true).2.1.failures = 0 ∧
      (CircuitBreaker.execute cfg
        (CircuitBreaker.execute cfg cb t1 true).2.1 t2 true).2.1.successCount = 0) ∨
     ((CircuitBreaker.execute cfg
        (CircuitBreaker.execute cfg cb t1 true).2.1 t2 true).2.1.state = .HALF_OPEN ∧
      (CircuitBreaker.execute cfg
        (CircuitBreaker.execute cfg
          (CircuitBreaker.execute cfg cb t1 true).2.1 t2 true).2.1 t3 true).2.1.state = .CLOSED ∧
      (CircuitBreaker.execute cfg
        (CircuitBreaker.execute cfg
          (CircuitBreaker.execute cfg cb t1 true).2.1 t2 true).2.1 t3 true).2.1.failures = 0 ∧
      (CircuitBreaker.execute cfg
        (CircuitBreaker.execute cfg
          (CircuitBreaker.execute cfg cb t1 true).2.1 t2 true).2.1 t3 true).2.1.successCount = 0)) := by
  obtain ⟨st, f, lft, sc⟩ := cb
  simp only at hst
  subst hst
  rcases sc with _ | _ | n <;>
    simp [CircuitBreaker.execute, CircuitBreaker.gate, CircuitBreaker.onSuccess, hen]

/-- Witness for C6 at a concrete HALF_OPEN breaker with 2 accumulated
failures: three successes close it. -/
theorem C6_half_open_three_successes_witness :
    ((⟨.HALF_OPEN, 2, 7, 0⟩ : CircuitBreaker).state = .HALF_OPEN) ∧
    (CircuitBreaker.execute ⟨true, 5, 60000, 0⟩
      (CircuitBreaker.execute ⟨true, 5, 60000, 0⟩
        (CircuitBreaker.execute ⟨true, 5, 60000, 0⟩ ⟨.HALF_OPEN, 2, 7, 0⟩ 1 true).2.1
        2 true).2.1 3 true).2.1.state = .CLOSED :=
  ⟨rfl, (C6_half_open_three_successes ⟨true, 5, 60000, 0⟩ ⟨.HALF_OPEN, 2, 7, 0⟩ 1 2 3
    rfl rfl).1⟩

-- =====================================
-- THEOREMS: RETRY HANDLER (C2, C7)
-- =====================================

/-- An operation that always fails with the message "forbidden". -/
def opForbidden : Nat → Except JsError Nat :=
  fun _ => Except.error ⟨"forbidden", none, none⟩

/-- C2 fails on the code: `RetryHandler.shouldRetry` tests raw-message
substrings ('401', 'authentication', '400', 'validation') and does not
consult the classifier, so a failure whose classification is
authentication_error can still be retried. Concretely, the message
"forbidden" classifies as authentication_error, yet `shouldRetry`
accepts it and with `maxAttempts = 2` the operation is invoked twice
with a backoff delay in between — not exactly once. -/
theorem C2_counterexample :
    classifyError "forbidden" none = ErrorType.authentication_error ∧
    shouldRetry "forbidden" = true ∧
    (retryExecute ⟨2, 100, 1000, 2, false⟩ opForbidden (fun _ => 0)).2.1 = 2 ∧
    (retryExecute ⟨2, 100, 1000, 2, false⟩ opForbidden (fun _ => 0)).2.2 = [100] := by
  refine ⟨by decide, by decide, by decide, by decide⟩

/-- C2 amended: `RetryHandler.execute` does not retry exactly those
failures whose raw error message contains (case-sensitively) '401',
'authentication', '400' or 'validation' (`shouldRetry = false`); for such
an error the operation is invoked exactly once, the error is rethrown
immediately, and no backoff delay is taken. Failures that classify as
authentication_error or validation_error through other routes (e.g. a
403 status or a 'forbidden' message) are retried. -/
theorem C2_amended_no_retry (cfg : RetryConfig) (op : Nat → Except JsError α)
    (jos : Nat → Int) (e : JsError)
    (hmax : 1 ≤ cfg.maxAttempts) (hop : op 0 = Except.error e)
    (hnr : shouldRetry e.message = false) :
    retryExecute cfg op jos = (Except.error (some e), 1, []) := by
  obtain ⟨m, hm⟩ : ∃ m, cfg.maxAttempts = m + 1 := ⟨cfg.maxAttempts - 1, by omega⟩
  unfold retryExecute
  rw [hm]
  simp [retryGo, hop, hnr]

/-- An operation that always fails with the message "401 unauthorized". -/
def opAuth401 : Nat → Except JsError Nat :=
  fun _ => Except.error ⟨"401 unauthorized", none, none⟩

/-- Witness for the amended C2: a "401 unauthorized" failure (classified
authentication_error) is thrown after exactly one invocation with no
delay. -/
theorem C2_amended_no_retry_witness :
    (1 ≤ (⟨3, 1000, 30000, 2, false⟩ : RetryConfig).maxAttempts) ∧
    shouldRetry "401 unauthorized" = false ∧
    classifyError "401 unauthorized" none = ErrorType.authentication_error ∧
    retryExecute ⟨3, 1000, 30000, 2, false⟩ opAuth401 (fun _ => 0) =
      (Except.error (some ⟨"401 unauthorized", none, none⟩), 1, []) :=
  ⟨by decide, by decide, by decide,
   C2_amended_no_retry ⟨3, 1000, 30000, 2, false⟩ opAuth401 (fun _ => 0)
     ⟨"401 unauthorized", none, none⟩ (by decide) rfl (by decide)⟩

/-- Shifting the head off an exponential-backoff delay list. -/
theorem delay_list_shift (b m M a f : Nat) :
    (List.range (f + 1)).map (fun k => min (b * m ^ (a + k)) M) =
      min (b * m ^ a) M ::
      (List.range f).map (fun k => min (b * m ^ (a + 1 + k)) M) := by
  rw [List.range_succ_eq_map, List.map_cons, List.map_map]
  simp only [Nat.add_zero]
  have hfun : ((fun k => min (b * m ^ (a + k)) M) ∘ Nat.succ) =
      fun k => min (b * m ^ (a + 1 + k)) M := by
    funext k
    simp only [Function.comp_apply, Nat.succ_eq_add_one]
    have hexp : a + (k + 1) = a + 1 + k := by omega
    rw [hexp]
  rw [hfun]

/-- The retry loop on an always-failing, always-retryable operation with
jitter disabled: starting at failure count `attempt` with matching fuel,
it performs `fuel` invocations, sleeps
`min(baseDelay * backoffMultiplier ^ i, maxDelay)` (1-based attempt
`i+1`) after each failure except the last, and rethrows the last
attempt's error. -/
theorem C7_aux (cfg : RetryConfig) (op : Nat → Except JsError α) (jos : Nat → Int)
    (e : Nat → JsError) (hj : cfg.jitter = false)
    (hop : ∀ i, op i = Except.error (e i))
    (hr : ∀ i, shouldRetry (e i).message = true) :
    ∀ fuel attempt, attempt + fuel = cfg.maxAttempts → 1 ≤ fuel →
    retryGo cfg op jos attempt fuel =
      (Except.error (some (e (cfg.maxAttempts - 1))), fuel,
       (List.range (fuel - 1)).map
         (fun k => min (cfg.baseDelay * cfg.backoffMultiplier ^ (attempt + k)) cfg.maxDelay)) := by
  intro fuel
  induction fuel with
  | zero => intro attempt _ h1; omega
  | succ f ihf =>
    intro attempt hsum h1
    cases f with
    | zero =>
      have hlast : ¬ (attempt + 1 < cfg.maxAttempts) := by omega
      have hatt : attempt = cfg.maxAttempts - 1 := by omega
      simp [retryGo, hop attempt, hr attempt, hlast]
      rw [hatt]
    | succ fp =>
      have hlt : attempt + 1 < cfg.maxAttempts := by omega
      have ihr := ihf (attempt + 1) (by omega) (by omega)
      conv_lhs => rw [retryGo]
      simp only [hop attempt, hr attempt, Bool.true_eq_false, if_false, ite_false,
        ite_true, if_true, hlt]
      rw [ihr]
      simp only [calculateDelay, hj, Bool.false_eq_true, ite_false, if_false,
        Int.toNat_natCast, Nat.add_sub_cancel]
      rw [delay_list_shift]

/-- C7: with jitter disabled and an operation that fails with a
retryable error at every attempt, `RetryHandler.execute` invokes the
operation exactly `maxAttempts` times, sleeps exactly
`min(baseDelay * backoffMultiplier ^ (i - 1), maxDelay)` after each
failed attempt `i < maxAttempts` (and takes no delay after the final
attempt — the delay list has `maxAttempts - 1` entries), and rethrows
the final attempt's error. -/
theorem C7_backoff_delays (cfg : RetryConfig) (op : Nat → Except JsError α)
    (jos : Nat → Int) (e : Nat → JsError)
    (hj : cfg.jitter = false) (hmax : 1 ≤ cfg.maxAttempts)
    (hop : ∀ i, op i = Except.error (e i))
    (hr : ∀ i, shouldRetry (e i).message = true) :
    retryExecute cfg op jos =
      (Except.error (some (e (cfg.maxAttempts - 1))), cfg.maxAttempts,
       (List.range (cfg.maxAttempts - 1)).map
         (fun k => min (cfg.baseDelay * cfg.backoffMultiplier ^ k) cfg.maxDelay)) := by
  have h := C7_aux cfg op jos e hj hop hr cfg.maxAttempts 0 (by omega) hmax
  unfold retryExecute
  simpa using h

/-- The error every attempt fails with in the C7 witness scenario. -/
def eWSrv : Nat → JsError :=
  fun _ => ⟨"server error", none, none⟩

/-- An operation that always fails with the message "server error". -/
def opServerErr : Nat → Except JsError Nat :=
  fun i => Except.error (eWSrv i)

/-- Witness for C7 at the claim's concrete configuration: maxAttempts 3,
baseDelay 1000, backoffMultiplier 2, jitter off — the delays are 1000ms
then 2000ms and the third failure returns immediately. -/
theorem C7_backoff_delays_witness :
    ((⟨3, 1000, 30000, 2, false⟩ : RetryConfig).jitter = false) ∧
    (1 ≤ (⟨3, 1000, 30000, 2, false⟩ : RetryConfig).maxAttempts) ∧
    (∀ i, shouldRetry (eWSrv i).message = true) ∧
    retryExecute ⟨3, 1000, 30000, 2, false⟩ opServerErr (fun _ => 0) =
      (Except.error (some ⟨"server error", none, none⟩), 3, [1000, 2000]) := by
  refine ⟨rfl, by decide, fun i => rfl, ?_⟩
  have h := C7_backoff_delays ⟨3, 1000, 30000, 2, false⟩ opServerErr (fun _ => 0)
    eWSrv rfl (by decide) (fun i => rfl) (fun i => rfl)
  rw [h]
  rfl

-- =====================================
-- THEOREMS: ERROR CLASSIFIER (C8)
-- =====================================

/-- C8: `classifyError` obeys the stated precedence. When a response
carrying a status code is present: 401/403 yield authentication_error,
429 yields rate_limit, any other 4xx yields validation_error, 5xx yields
server_error. When no response is present, the lowercased message is
matched in order: timeout terms, then connection/network terms, then auth
terms, then rate-limit terms; and server_error in every remaining case. -/
theorem C8_classifier_precedence :
    (∀ (msg : String) (r : JsResponse), r.status = 401 ∨ r.status = 403 →
      classifyError msg (some r) = .authentication_error) ∧
    (∀ (msg : String) (r : JsResponse), r.status = 429 →
      classifyError msg (some r) = .rate_limit) ∧
    (∀ (msg : String) (r : JsResponse), 400 ≤ r.status → r.status < 500 →
      r.status ≠ 401 → r.status ≠ 403 → r.status ≠ 429 →
      classifyError msg (some r) = .validation_error) ∧
    (∀ (msg : String) (r : JsResponse), 500 ≤ r.status →
      classifyError msg (some r) = .server_error) ∧
    (∀ msg : String, timeoutTerms (lowerStr msg) = true →
      classifyError msg none = .timeout) ∧
    (∀ msg : String, timeoutTerms (lowerStr msg) = false →
      connectionTerms (lowerStr msg) = true →
      classifyError msg none = .connection_error) ∧
    (∀ msg : String, timeoutTerms (lowerStr msg) = false →
      connectionTerms (lowerStr msg) = false →
      authTerms (lowerStr msg) = true →
      classifyError msg none = .authentication_error) ∧
    (∀ msg : String, timeoutTerms (lowerStr msg) = false →
      connectionTerms (lowerStr msg) = false →
      authTerms (lowerStr msg) = false →
      rateLimitTerms (lowerStr msg) = true →
      classifyError msg none = .rate_limit) ∧
    (∀ msg : String, timeoutTerms (lowerStr msg) = false →
      connectionTerms (lowerStr msg) = false →
      authTerms (lowerStr msg) = false →
      rateLimitTerms (lowerStr msg) = false →
      classifyError msg none = .server_error) := by
  refine ⟨?_, ?_, ?_, ?_, ?_, ?_, ?_, ?_, ?_⟩
  · intro msg r h
    rcases h with h | h <;>
      simp [classifyError, h]
  · intro msg r h
    simp [classifyError, h]
  · intro msg r h4 h5 hn1 hn3 hn9
    have h0 : ¬ r.status = 0 := by omega
    have hna : ¬ (r.status = 401 ∨ r.status = 403) := by omega
    have h45 : 400 ≤ r.status ∧ r.status < 500 := ⟨h4, h5⟩
    simp [classifyError, h0, hna, hn9, h45]
  · intro msg r h5
    have h0 : ¬ r.status = 0 := by omega
    have hna : ¬ (r.status = 401 ∨ r.status = 403) := by omega
    have hn9 : ¬ r.status = 429 := by omega
    have h45 : ¬ (400 ≤ r.status ∧ r.status < 500) := by omega
    simp [classifyError, h0, hna, hn9, h45, h5]
  · intro msg h
    simp [classifyError, h]
  · intro msg h1 h2
    simp [classifyError, h1, h2]
  · intro msg h1 h2 h3
    simp [classifyError, h1, h2, h3]
  · intro msg h1 h2 h3 h4
    simp [classifyError, h1, h2, h3, h4]
  · intro msg h1 h2 h3 h4
    simp [classifyError, h1, h2, h3, h4]

/-- Witness for C8: every branch of the precedence, instantiated at a
concrete status or message. -/
theorem C8_classifier_precedence_witness :
    classifyError "x" (some ⟨401, [], none⟩) = .authentication_error ∧
    classifyError "x" (some ⟨429, [], none⟩) = .rate_limit ∧
    classifyError "x" (some ⟨404, [], none⟩) = .validation_error ∧
    classifyError "x" (some ⟨503, [], none⟩) = .server_error ∧
    classifyError "Request TIMEOUT" none = .timeout ∧
    classifyError "network down" none = .connection_error ∧
    classifyError "Unauthorized" none = .authentication_error ∧
    classifyError "rate limit exceeded" none = .rate_limit ∧
    classifyError "boom" none = .server_error :=
  ⟨C8_classifier_precedence.1 "x" ⟨401, [], none⟩ (Or.inl rfl),
   C8_classifier_precedence.2.1 "x" ⟨429, [], none⟩ rfl,
   C8_classifier_precedence.2.2.1 "x" ⟨404, [], none⟩ (by decide) (by decide)
     (by decide) (by decide) (by decide),
   C8_classifier_precedence.2.2.2.1 "x" ⟨503, [], none⟩ (by decide),
   C8_classifier_precedence.2.2.2.2.1 "Request TIMEOUT" (by decide),
   C8_classifier_precedence.2.2.2.2.2.1 "network down" (by decide) (by decide),
   C8_classifier_precedence.2.2.2.2.2.2.1 "Unauthorized" (by decide) (by decide)
     (by decide),
   C8_classifier_precedence.2.2.2.2.2.2.2.1 "rate limit exceeded" (by decide)
     (by decide) (by decide) (by decide),
   C8_classifier_precedence.2.2.2.2.2.2.2.2 "boom" (by decide) (by decide)
     (by decide) (by decide)⟩

-- =====================================
-- THEOREMS: INTEGRATION CLIENT (C1, C9, C10)
-- =====================================

/-- When the retry loop of `makeRequest` ends in a thrown error after at
least one invocation, the client's `lastError` variable holds an
`IntegrationError`. -/
theorem mrGo_some_lastError (ep : IntegrationEndpoint)
    (request : IntegrationRequest) (requestId : String)
    (transport : Nat → Except JsError α) (jos : Nat → Int) (now : Nat)
    (attempt fuel : Nat) (st : MRState) (er : Option JsError)
    (herr : (mrGo ep request requestId transport jos now attempt fuel st).1 =
      Except.error er)
    (hinv : 1 ≤ (mrGo ep request requestId transport jos now attempt fuel st).2.1) :
    ∃ ie, (mrGo ep request requestId transport jos now attempt fuel st).2.2.2 = some ie := by
  cases fuel with
  | zero => simp [mrGo] at hinv
  | succ f =>
    cases htr : transport attempt with
    | ok v => simp [mrGo, htr] at herr
    | error e =>
      by_cases hsr : shouldRetry e.message = false
      · exact ⟨createIntegrationError ep.id e request requestId attempt now,
          by simp [mrGo, htr, hsr]⟩
      · by_cases hlt : attempt + 1 < ep.retryConfig.maxAttempts
        · simp only [mrGo, htr, hsr, hlt, if_true, if_false, ite_true, ite_false]
          cases (mrGo ep request requestId transport jos now (attempt + 1) f
            (logError st (createIntegrationError ep.id e request requestId attempt now))).2.2.2 <;>
            simp
        · exact ⟨createIntegrationError ep.id e request requestId attempt now,
            by simp [mrGo, htr, hsr, hlt]⟩

/-- C1 amended: `makeRequest` always returns a Result (it is a total
function of the call's inputs — no exception reaches the caller), and
whenever it returns `success = false` after at least one attempt was made
(exhausted retries or a non-retryable error), the Result's `error` field
is populated with the stored IntegrationError. When the failure is the
circuit-open rejection, no attempt is made (`attempts = 0`) and the
`error` field is left unpopulated — see the counterexample. -/
theorem C1_amended_result_contract (ep : IntegrationEndpoint)
    (cb : CircuitBreaker) (request : IntegrationRequest) (requestId : String)
    (transport : Nat → Except JsError α) (jos : Nat → Int) (now : Nat)
    (st : MRState)
    (hfail : (makeRequest ep cb request requestId transport jos now st).1.success = false)
    (hatt : 1 ≤ (makeRequest ep cb request requestId transport jos now st).1.attempts) :
    ∃ e, (makeRequest ep cb request requestId transport jos now st).1.error = some e := by
  by_cases hen : ep.circuitBreakerConfig.enabled = false
  · cases hz : (mrGo ep request requestId transport jos now 0
      ep.retryConfig.maxAttempts st).1 with
    | ok v => simp [makeRequest, hen, hz] at hfail
    | error er =>
      have hattz : 1 ≤ (mrGo ep request requestId transport jos now 0
          ep.retryConfig.maxAttempts st).2.1 := by
        simpa [makeRequest, hen, hz] using hatt
      obtain ⟨ie, hie⟩ := mrGo_some_lastError ep request requestId transport jos now
        0 ep.retryConfig.maxAttempts st er hz hattz
      exact ⟨ie, by simp [makeRequest, hen, hz, hie]⟩
  · cases hg : CircuitBreaker.gate ep.circuitBreakerConfig cb now with
    | none => simp [makeRequest, hen, hg] at hatt
    | some cb1 =>
      cases hz : (mrGo ep request requestId transport jos now 0
        ep.retryConfig.maxAttempts st).1 with
      | ok v => simp [makeRequest, hen, hg, hz] at hfail
      | error er =>
        have hattz : 1 ≤ (mrGo ep request requestId transport jos now 0
            ep.retryConfig.maxAttempts st).2.1 := by
          simpa [makeRequest, hen, hg, hz] using hatt
        obtain ⟨ie, hie⟩ := mrGo_some_lastError ep request requestId transport jos now
          0 ep.retryConfig.maxAttempts st er hz hattz
        exact ⟨ie, by simp [makeRequest, hen, hg, hz, hie]⟩

/-- An endpoint with failureThreshold 1, resetTimeout 60000 and a single
retry attempt, used for the concrete client scenarios. -/
def epOne : IntegrationEndpoint :=
  ⟨"ep1", "ep1", "external_api", "", 1000, ⟨1, 1000, 30000, 2, false⟩,
   ⟨true, 1, 60000, 300000⟩⟩

/-- The empty monitoring state. -/
def st0 : MRState := ⟨[], [], []⟩

/-- A request without headers. -/
def reqC1 : IntegrationRequest := ⟨"GET", "/x", none, none, none⟩

/-- A transport that always succeeds with 0. -/
def opOkNat : Nat → Except JsError Nat := fun _ => Except.ok 0

/-- First call against `epOne`: the transport fails, the breaker opens. -/
def mkFail1 : IntegrationResponse Nat × CircuitBreaker × MRState :=
  makeRequest epOne {} reqC1 "r1" opServerErr (fun _ => 0) 100 st0

/-- Second call 50ms later: rejected by the OPEN breaker. -/
def mkOpenCall : IntegrationResponse Nat × CircuitBreaker × MRState :=
  makeRequest epOne mkFail1.2.1 reqC1 "r2" opOkNat (fun _ => 0) 150 mkFail1.2.2

/-- C1 fails on the code in the circuit-open case: after one failing call
opens the breaker (threshold 1), the next call is rejected and
`makeRequest` returns `success = false` with `error` unpopulated
(`lastError` was never assigned) and `attempts = 0`, contradicting the
claim that every `success=false` Result carries a populated error. -/
theorem C1_counterexample :
    mkFail1.2.1.state = .OPEN ∧
    mkOpenCall.1.success = false ∧
    mkOpenCall.1.error = none ∧
    mkOpenCall.1.attempts = 0 := by
  refine ⟨by decide, by decide, by decide, by decide⟩

/-- Witness for the amended C1: the first (failing, admitted) call has
`success = false`, one attempt, and a populated error field. -/
theorem C1_amended_result_contract_witness :
    mkFail1.1.success = false ∧ 1 ≤ mkFail1.1.attempts ∧
    ∃ e, mkFail1.1.error = some e :=
  ⟨by decide, by decide,
   C1_amended_result_contract epOne {} reqC1 "r1" opServerErr (fun _ => 0) 100 st0
     (by decide) (by decide)⟩

/-- C9 fails on the code for empty-valued credential headers: the
redaction loop tests `if (sanitized[header])`, and the empty string is
falsy in JavaScript, so an `authorization` header whose value is `""` is
stored unredacted, while the `x-api-key` header with a non-empty value is
redacted. The IntegrationError stored by the client under the call's
request id exhibits this. -/
theorem C9_counterexample :
    logGet (makeRequest epOne {}
        (⟨"GET", "/x", some [("authorization", ""), ("x-api-key", "k")], none, none⟩ :
          IntegrationRequest)
        "r9" opServerErr (fun _ => 0) 100 st0).2.2.log "r9" =
      some (createIntegrationError "ep1" ⟨"server error", none, none⟩
        ⟨"GET", "/x", some [("authorization", ""), ("x-api-key", "k")], none, none⟩
        "r9" 0 100) ∧
    ("authorization", "") ∈ (createIntegrationError "ep1"
        ⟨"server error", none, none⟩
        ⟨"GET", "/x", some [("authorization", ""), ("x-api-key", "k")], none, none⟩
        "r9" 0 100).requestData.headers ∧
    ("authorization", "[REDACTED]") ∉ (createIntegrationError "ep1"
        ⟨"server error", none, none⟩
        ⟨"GET", "/x", some [("authorization", ""), ("x-api-key", "k")], none, none⟩
        "r9" 0 100).requestData.headers := by
  refine ⟨by decide, by decide, by decide⟩

/-- C9 amended: in the request snapshot stored in every IntegrationError
built by `createIntegrationError`, a header named authorization,
x-api-key or cookie with a non-empty value is stored with its value
replaced by "[REDACTED]", and every other header entry — other names, or
a sensitive name whose value is the (falsy) empty string — is stored with
the value it had in the original request. -/
theorem C9_amended_redaction (endpointId : String) (e : JsError)
    (request : IntegrationRequest) (requestId : String) (retryCount now : Nat)
    (k v : String) (hmem : (k, v) ∈ request.headers.getD []) :
    ((k ∈ sensitiveHeaders ∧ v ≠ "") →
      (k, "[REDACTED]") ∈
        (createIntegrationError endpointId e request requestId retryCount now).requestData.headers) ∧
    ((k ∉ sensitiveHeaders ∨ v = "") →
      (k, v) ∈
        (createIntegrationError endpointId e request requestId retryCount now).requestData.headers) := by
  constructor
  · rintro ⟨hk, hv⟩
    have hmem2 : (k, "[REDACTED]") ∈ sanitizeHeaders (request.headers.getD []) := by
      refine List.mem_map.mpr ⟨(k, v), hmem, ?_⟩
      simp [hk, hv]
    simpa [createIntegrationError] using hmem2
  · intro h
    have hmem2 : (k, v) ∈ sanitizeHeaders (request.headers.getD []) := by
      refine List.mem_map.mpr ⟨(k, v), hmem, ?_⟩
      have hcond : ¬ ((k, v).1 ∈ sensitiveHeaders ∧ (k, v).2 ≠ "") := by
        rcases h with h | h
        · exact fun hc => h hc.1
        · exact fun hc => hc.2 h
      rw [if_neg hcond]
    simpa [createIntegrationError] using hmem2

/-- Witness for the amended C9: a non-empty authorization value is
redacted; an unrelated header keeps its value. -/
theorem C9_amended_redaction_witness :
    (("authorization", "secret") ∈
      ((⟨"GET", "/x", some [("authorization", "secret"), ("x-trace", "t")], none, none⟩ :
        IntegrationRequest)).headers.getD []) ∧
    ("authorization", "[REDACTED]") ∈
      (createIntegrationError "ep" ⟨"boom", none, none⟩
        ⟨"GET", "/x", some [("authorization", "secret"), ("x-trace", "t")], none, none⟩
        "r" 0 0).requestData.headers ∧
    ("x-trace", "t") ∈
      (createIntegrationError "ep" ⟨"boom", none, none⟩
        ⟨"GET", "/x", some [("authorization", "secret"), ("x-trace", "t")], none, none⟩
        "r" 0 0).requestData.headers :=
  ⟨by decide,
   (C9_amended_redaction "ep" ⟨"boom", none, none⟩
     ⟨"GET", "/x", some [("authorization", "secret"), ("x-trace", "t")], none, none⟩
     "r" 0 0 "authorization" "secret" (by decide)).1 (by decide),
   (C9_amended_redaction "ep" ⟨"boom", none, none⟩
     ⟨"GET", "/x", some [("authorization", "secret"), ("x-trace", "t")], none, none⟩
     "r" 0 0 "x-trace" "t" (by decide)).2 (by decide)⟩

/-- The IntegrationErrors created and logged by the retry loop of one
`makeRequest` call: one per failed transport invocation among invocations
`a, a+1, ..., a+n-1` (a successful invocation contributes nothing). -/
def evList (ep : IntegrationEndpoint) (request : IntegrationRequest)
    (requestId : String) (transport : Nat → Except JsError α) (now : Nat)
    (a n : Nat) : List IntegrationError :=
  (List.range n).filterMap (fun j =>
    match transport (a + j) with
    | .error e => some (createIntegrationError ep.id e request requestId (a + j) now)
    | .ok _ => none)

/-- Shifting the invocation index inside the per-invocation error
builder. -/
theorem evShift (ep : IntegrationEndpoint) (request : IntegrationRequest)
    (requestId : String) (transport : Nat → Except JsError α) (now : Nat)
    (a : Nat) :
    ((fun j =>
      match transport (a + j) with
      | Except.error e => some (createIntegrationError ep.id e request requestId (a + j) now)
      | Except.ok _ => none) ∘ Nat.succ) =
    (fun j =>
      match transport (a + 1 + j) with
      | Except.error e => some (createIntegrationError ep.id e request requestId (a + 1 + j) now)
      | Except.ok _ => none) := by
  funext j
  simp only [Function.comp_apply, Nat.succ_eq_add_one]
  have hexp : a + (j + 1) = a + 1 + j := by omega
  rw [hexp]

/-- Peeling the first invocation off `evList` when it fails. -/
theorem evList_succ_err (ep : IntegrationEndpoint) (request : IntegrationRequest)
    (requestId : String) (transport : Nat → Except JsError α) (now : Nat)
    (a n : Nat) (e : JsError) (htr : transport a = Except.error e) :
    evList ep request requestId transport now a (n + 1) =
      createIntegrationError ep.id e request requestId a now ::
      evList ep request requestId transport now (a + 1) n := by
  unfold evList
  rw [List.range_succ_eq_map, List.filterMap_cons, List.filterMap_map]
  have ha : a + 0 = a := by omega
  rw [ha, htr]
  dsimp only
  rw [evShift]

/-- Peeling the first invocation off `evList` when it succeeds. -/
theorem evList_succ_ok (ep : IntegrationEndpoint) (request : IntegrationRequest)
    (requestId : String) (transport : Nat → Except JsError α) (now : Nat)
    (a n : Nat) (v : α) (htr : transport a = Except.ok v) :
    evList ep request requestId transport now a (n + 1) =
      evList ep request requestId transport now (a + 1) n := by
  unfold evList
  rw [List.range_succ_eq_map, List.filterMap_cons, List.filterMap_map]
  have ha : a + 0 = a := by omega
  rw [ha, htr]
  dsimp only
  rw [evShift]

/-- Every error in `evList` carries the call's request id. -/
theorem evList_id (ep : IntegrationEndpoint) (request : IntegrationRequest)
    (requestId : String) (transport : Nat → Except JsError α) (now : Nat)
    (a n : Nat) :
    ∀ e ∈ evList ep request requestId transport now a n, e.id = requestId := by
  intro e he
  obtain ⟨j, _, hfe⟩ := List.mem_filterMap.mp he
  revert hfe
  cases transport (a + j) with
  | ok v => simp
  | error er =>
    intro hfe
    simp only [Option.some.injEq] at hfe
    rw [← hfe]
    rfl

/-- Evaluates `logGet` on a cons cell. -/
theorem logGet_cons (p : String × IntegrationError)
    (t : List (String × IntegrationError)) (k : String) :
    logGet (p :: t) k = if p.1 = k then some p.2 else logGet t k := by
  by_cases hp : p.1 = k <;>
    simp [logGet, List.find?_cons_of_pos, List.find?_cons_of_neg, hp]

/-- Setting a key then reading it back yields the new value. -/
theorem logGet_logSet_self (l : List (String × IntegrationError)) (k : String)
    (v : IntegrationError) : logGet (logSet l k v) k = some v := by
  induction l with
  | nil => simp [logSet, logGet]
  | cons p t ih =>
    by_cases hp : p.1 = k
    · simp [logSet, hp, logGet_cons]
    · simp [logSet, hp, logGet_cons, ih]

/-- Setting a key leaves reads of other keys unchanged. -/
theorem logGet_logSet_other (l : List (String × IntegrationError))
    (k kp : String) (v : IntegrationError) (hne : kp ≠ k) :
    logGet (logSet l k v) kp = logGet l kp := by
  have hne2 : ¬ (k = kp) := fun h => hne h.symm
  induction l with
  | nil => simp [logSet, logGet_cons, logGet, hne2]
  | cons p t ih =>
    by_cases hp : p.1 = k
    · simp [logSet, hp, logGet_cons, hne2]
    · simp [logSet, hp, logGet_cons, ih]

/-- Evaluates `countKey` on the empty log. -/
theorem countKey_nil (k : String) : countKey [] k = 0 := rfl

/-- Evaluates `countKey` on a cons cell. -/
theorem countKey_cons (p : String × IntegrationError)
    (t : List (String × IntegrationError)) (k : String) :
    countKey (p :: t) k = (if p.1 = k then 1 else 0) + countKey t k := by
  by_cases hp : p.1 = k <;>
    simp [countKey, List.filter_cons, hp, Nat.add_comm]

/-- Setting a key with `logSet` keeps its entry count at most 1 when it was at
most 1. -/
theorem countKey_logSet (l : List (String × IntegrationError)) (k : String)
    (v : IntegrationError) (h : countKey l k ≤ 1) :
    countKey (logSet l k v) k ≤ 1 := by
  induction l with
  | nil => simp [logSet, countKey_cons, countKey_nil]
  | cons p t ih =>
    by_cases hp : p.1 = k
    · rw [logSet, if_pos hp]
      rw [countKey_cons, if_pos hp] at h
      rw [countKey_cons, if_pos (show (k, v).1 = k from rfl)]
      omega
    · rw [logSet, if_neg hp]
      rw [countKey_cons, if_neg hp] at h
      rw [countKey_cons, if_neg hp]
      have hk := ih (by omega)
      omega

/-- Folding `logSet` over errors that all share one id: reading that id
back yields the last error folded in. -/
theorem logGet_foldl_self (es : List IntegrationError) (rid : String) :
    ∀ (l : List (String × IntegrationError)) (hne : es ≠ []),
    (∀ e ∈ es, e.id = rid) →
    logGet (es.foldl (fun acc e => logSet acc e.id e) l) rid =
      some (es.getLast hne) := by
  induction es with
  | nil => intro l hne _; exact absurd rfl hne
  | cons e t ih =>
    intro l hne hid
    cases t with
    | nil =>
      simp only [List.foldl_cons, List.foldl_nil]
      rw [List.getLast_singleton]
      rw [hid e (by simp)]
      exact logGet_logSet_self l rid e
    | cons e2 t2 =>
      simp only [List.foldl_cons]
      rw [List.getLast_cons (by simp : (e2 :: t2) ≠ [])]
      exact ih (logSet l e.id e) (by simp) (fun x hx => hid x (by simp [hx]))

/-- Folding `logSet` over errors that all avoid a key leaves reads of
that key unchanged. -/
theorem logGet_foldl_other (es : List IntegrationError) (k : String) :
    ∀ l, (∀ e ∈ es, e.id ≠ k) →
    logGet (es.foldl (fun acc e => logSet acc e.id e) l) k = logGet l k := by
  induction es with
  | nil => intro l _; rfl
  | cons e t ih =>
    intro l hk
    simp only [List.foldl_cons]
    rw [ih (logSet l e.id e) (fun x hx => hk x (by simp [hx]))]
    exact logGet_logSet_other l e.id k e (Ne.symm (hk e (by simp)))

/-- Folding `logSet` over errors that all share one id keeps the entry
count of that id at most 1. -/
theorem countKey_foldl (es : List IntegrationError) (rid : String) :
    ∀ l, (∀ e ∈ es, e.id = rid) → countKey l rid ≤ 1 →
    countKey (es.foldl (fun acc e => logSet acc e.id e) l) rid ≤ 1 := by
  induction es with
  | nil => intro l _ h; exact h
  | cons e t ih =>
    intro l hid h
    simp only [List.foldl_cons]
    apply ih (logSet l e.id e) (fun x hx => hid x (by simp [hx]))
    rw [hid e (by simp)]
    exact countKey_logSet l rid e h

/-- The retry loop of `makeRequest` logs exactly one IntegrationError per
failed transport invocation (`evList`), appends them to the event list in
order, folds them into the request log under their ids, and the number
of logged errors is the invocation count, minus one exactly when the
final invocation succeeded. -/
theorem mrGo_state (ep : IntegrationEndpoint) (request : IntegrationRequest)
    (requestId : String) (transport : Nat → Except JsError α) (jos : Nat → Int)
    (now : Nat) :
    ∀ (fuel attempt : Nat) (st : MRState),
    ((mrGo ep request requestId transport jos now attempt fuel st).2.2.1.events =
      st.events ++ evList ep request requestId transport now attempt
        (mrGo ep request requestId transport jos now attempt fuel st).2.1) ∧
    ((mrGo ep request requestId transport jos now attempt fuel st).2.2.1.log =
      (evList ep request requestId transport now attempt
        (mrGo ep request requestId transport jos now attempt fuel st).2.1).foldl
        (fun acc e => logSet acc e.id e) st.log) ∧
    (∀ v : α, (mrGo ep request requestId transport jos now attempt fuel st).1 = Except.ok v →
      (evList ep request requestId transport now attempt
        (mrGo ep request requestId transport jos now attempt fuel st).2.1).length + 1 =
        (mrGo ep request requestId transport jos now attempt fuel st).2.1) ∧
    (∀ er : Option JsError,
      (mrGo ep request requestId transport jos now attempt fuel st).1 = Except.error er →
      (evList ep request requestId transport now attempt
        (mrGo ep request requestId transport jos now attempt fuel st).2.1).length =
        (mrGo ep request requestId transport jos now attempt fuel st).2.1) := by
  intro fuel
  induction fuel with
  | zero =>
    intro attempt st
    refine ⟨?_, ?_, ?_, ?_⟩ <;> simp [mrGo, evList]
  | succ f ihf =>
    intro attempt st
    cases htr : transport attempt with
    | ok v =>
      have hev : evList ep request requestId transport now attempt 1 = [] := by
        have h1 := evList_succ_ok ep request requestId transport now attempt 0 v htr
        simpa [evList] using h1
      refine ⟨?_, ?_, ?_, ?_⟩ <;> simp [mrGo, htr, hev]
    | error e =>
      by_cases hsr : shouldRetry e.message = false
      · have hev : evList ep request requestId transport now attempt 1 =
            [createIntegrationError ep.id e request requestId attempt now] := by
          have h1 := evList_succ_err ep request requestId transport now attempt 0 e htr
          simpa [evList] using h1
        refine ⟨?_, ?_, ?_, ?_⟩ <;> simp [mrGo, htr, hsr, hev, logError]
      · by_cases hlt : attempt + 1 < ep.retryConfig.maxAttempts
        · have hz : mrGo ep request requestId transport jos now attempt (f + 1) st =
              ((mrGo ep request requestId transport jos now (attempt + 1) f
                  (logError st (createIntegrationError ep.id e request requestId attempt now))).1,
               (mrGo ep request requestId transport jos now (attempt + 1) f
                  (logError st (createIntegrationError ep.id e request requestId attempt now))).2.1 + 1,
               (mrGo ep request requestId transport jos now (attempt + 1) f
                  (logError st (createIntegrationError ep.id e request requestId attempt now))).2.2.1,
               match (mrGo ep request requestId transport jos now (attempt + 1) f
                  (logError st (createIntegrationError ep.id e request requestId attempt now))).2.2.2 with
               | some x => some x
               | none => some (createIntegrationError ep.id e request requestId attempt now)) := by
            conv_lhs => rw [mrGo]
            simp [htr, hsr, hlt]
          obtain ⟨ihev, ihlog, ihok, iherr⟩ := ihf (attempt + 1)
            (logError st (createIntegrationError ep.id e request requestId attempt now))
          have hev := evList_succ_err ep request requestId transport now attempt
            ((mrGo ep request requestId transport jos now (attempt + 1) f
              (logError st (createIntegrationError ep.id e request requestId attempt now))).2.1)
            e htr
          refine ⟨?_, ?_, ?_, ?_⟩
          · rw [hz]
            simp only []
            rw [ihev, hev]
            simp [logError, List.append_assoc]
          · rw [hz]
            simp only []
            rw [hev, List.foldl_cons, ihlog]
            simp [logError]
          · intro v hok
            rw [hz] at hok ⊢
            simp only [] at hok ⊢
            rw [hev]
            have := ihok v hok
            simp only [List.length_cons]
            omega
          · intro er herr
            rw [hz] at herr ⊢
            simp only [] at herr ⊢
            rw [hev]
            have hre : ∃ er2, (mrGo ep request requestId transport jos now (attempt + 1) f
                (logError st (createIntegrationError ep.id e request requestId attempt now))).1 =
                Except.error er2 := by
              revert herr
              cases (mrGo ep request requestId transport jos now (attempt + 1) f
                (logError st (createIntegrationError ep.id e request requestId attempt now))).1 with
              | ok v => intro h; exact absurd h (by simp)
              | error er2 => intro _; exact ⟨er2, rfl⟩
            obtain ⟨er2, her2⟩ := hre
            have := iherr er2 her2
            simp only [List.length_cons]
            omega
        · have hev : evList ep request requestId transport now attempt 1 =
              [createIntegrationError ep.id e request requestId attempt now] := by
            have h1 := evList_succ_err ep request requestId transport now attempt 0 e htr
            simpa [evList] using h1
          refine ⟨?_, ?_, ?_, ?_⟩ <;> simp [mrGo, htr, hsr, hlt, hev, logError]

/-- The per-call log/event package for one admitted retry run: the new
events all carry the request id, the log retains at most one entry under
it — the most recent logged error — and other keys are untouched. -/
theorem mrGo_log_package (ep : IntegrationEndpoint)
    (request : IntegrationRequest) (requestId : String)
    (transport : Nat → Except JsError α) (jos : Nat → Int) (now : Nat)
    (st : MRState) (hcnt : countKey st.log requestId ≤ 1) :
    ∃ es : List IntegrationError,
      ((mrGo ep request requestId transport jos now 0
        ep.retryConfig.maxAttempts st).2.2.1.events = st.events ++ es) ∧
      (∀ e ∈ es, e.id = requestId) ∧
      (∀ hne : es ≠ [], logGet (mrGo ep request requestId transport jos now 0
        ep.retryConfig.maxAttempts st).2.2.1.log requestId = some (es.getLast hne)) ∧
      (es = [] → (mrGo ep request requestId transport jos now 0
        ep.retryConfig.maxAttempts st).2.2.1.log = st.log) ∧
      (∀ k, k ≠ requestId → logGet (mrGo ep request requestId transport jos now 0
        ep.retryConfig.maxAttempts st).2.2.1.log k = logGet st.log k) ∧
      (countKey (mrGo ep request requestId transport jos now 0
        ep.retryConfig.maxAttempts st).2.2.1.log requestId ≤ 1) ∧
      (∀ v : α, (mrGo ep request requestId transport jos now 0
        ep.retryConfig.maxAttempts st).1 = Except.ok v →
        es.length + 1 = (mrGo ep request requestId transport jos now 0
          ep.retryConfig.maxAttempts st).2.1) ∧
      (∀ er : Option JsError, (mrGo ep request requestId transport jos now 0
        ep.retryConfig.maxAttempts st).1 = Except.error er →
        es.length = (mrGo ep request requestId transport jos now 0
          ep.retryConfig.maxAttempts st).2.1) := by
  obtain ⟨hev, hlog, hok, herr⟩ :=
    mrGo_state ep request requestId transport jos now ep.retryConfig.maxAttempts 0 st
  refine ⟨evList ep request requestId transport now 0
    (mrGo ep request requestId transport jos now 0
      ep.retryConfig.maxAttempts st).2.1, hev,
    evList_id ep request requestId transport now 0 _, ?_, ?_, ?_, ?_, hok, herr⟩
  · intro hne
    rw [hlog]
    exact logGet_foldl_self _ requestId st.log hne
      (evList_id ep request requestId transport now 0 _)
  · intro h
    rw [hlog, h]
    rfl
  · intro k hk
    rw [hlog]
    refine logGet_foldl_other _ k st.log (fun e he => ?_)
    rw [evList_id ep request requestId transport now 0 _ e he]
    exact Ne.symm hk
  · rw [hlog]
    exact countKey_foldl _ requestId st.log
      (evList_id ep request requestId transport now 0 _) hcnt

/-- C10: for every `makeRequest` call whose request id holds at most one
log entry beforehand (in particular a fresh id), there is a list `es` of
IntegrationErrors — one per failed attempt, in order — such that: the
call appends exactly `es` to the emitted `integrationError` events; every
error in `es` carries the call's request id; when any attempt failed the
log afterwards maps the request id to the error of the most recent failed
attempt, and when no attempt failed the log is unchanged; entries under
other request ids are untouched; the log retains at most one entry for
this id; and the number of stored errors equals the number of attempts,
minus one exactly when the call succeeded (an attempt that is later
followed by a successful retry still contributes its error). -/
theorem C10_error_log_per_call (ep : IntegrationEndpoint)
    (cb : CircuitBreaker) (request : IntegrationRequest) (requestId : String)
    (transport : Nat → Except JsError α) (jos : Nat → Int) (now : Nat)
    (st : MRState) (hcnt : countKey st.log requestId ≤ 1) :
    ∃ es : List IntegrationError,
      ((makeRequest ep cb request requestId transport jos now st).2.2.events =
        st.events ++ es) ∧
      (∀ e ∈ es, e.id = requestId) ∧
      (∀ hne : es ≠ [], logGet (makeRequest ep cb request requestId transport jos
        now st).2.2.log requestId = some (es.getLast hne)) ∧
      (es = [] → (makeRequest ep cb request requestId transport jos now st).2.2.log =
        st.log) ∧
      (∀ k, k ≠ requestId → logGet (makeRequest ep cb request requestId transport jos
        now st).2.2.log k = logGet st.log k) ∧
      (countKey (makeRequest ep cb request requestId transport jos now st).2.2.log
        requestId ≤ 1) ∧
      ((makeRequest ep cb request requestId transport jos now st).1.success = true →
        es.length + 1 =
          (makeRequest ep cb request requestId transport jos now st).1.attempts) ∧
      ((makeRequest ep cb request requestId transport jos now st).1.success = false →
        es.length =
          (makeRequest ep cb request requestId transport jos now st).1.attempts) := by
  by_cases hen : ep.circuitBreakerConfig.enabled = false
  · obtain ⟨es, hev, hid, hself, hemp, hoth, hcnt2, hok, herr⟩ :=
      mrGo_log_package ep request requestId transport jos now st hcnt
    cases hz : (mrGo ep request requestId transport jos now 0
      ep.retryConfig.maxAttempts st).1 with
    | ok v =>
      refine ⟨es, ?_, hid, ?_, ?_, ?_, ?_, ?_, ?_⟩
      · simpa [makeRequest, hen, hz] using hev
      · intro hne
        simpa [makeRequest, hen, hz] using hself hne
      · intro h
        simpa [makeRequest, hen, hz] using hemp h
      · intro k hk
        simpa [makeRequest, hen, hz] using hoth k hk
      · simpa [makeRequest, hen, hz] using hcnt2
      · intro _
        have := hok v hz
        simpa [makeRequest, hen, hz] using this
      · intro hfalse
        simp [makeRequest, hen, hz] at hfalse
    | error er =>
      refine ⟨es, ?_, hid, ?_, ?_, ?_, ?_, ?_, ?_⟩
      · simpa [makeRequest, hen, hz] using hev
      · intro hne
        simpa [makeRequest, hen, hz] using hself hne
      · intro h
        simpa [makeRequest, hen, hz] using hemp h
      · intro k hk
        simpa [makeRequest, hen, hz] using hoth k hk
      · simpa [makeRequest, hen, hz] using hcnt2
      · intro htrue
        simp [makeRequest, hen, hz] at htrue
      · intro _
        have := herr er hz
        simpa [makeRequest, hen, hz] using this
  · cases hg : CircuitBreaker.gate ep.circuitBreakerConfig cb now with
    | none =>
      refine ⟨[], ?_, by simp, ?_, ?_, ?_, ?_, ?_, ?_⟩
      · simp [makeRequest, hen, hg]
      · intro hne
        exact absurd rfl hne
      · intro _
        simp [makeRequest, hen, hg]
      · intro k _
        simp [makeRequest, hen, hg]
      · simpa [makeRequest, hen, hg] using hcnt
      · intro htrue
        simp [makeRequest, hen, hg] at htrue
      · intro _
        simp [makeRequest, hen, hg]
    | some cb1 =>
      obtain ⟨es, hev, hid, hself, hemp, hoth, hcnt2, hok, herr⟩ :=
        mrGo_log_package ep request requestId transport jos now st hcnt
      cases hz : (mrGo ep request requestId transport jos now 0
        ep.retryConfig.maxAttempts st).1 with
      | ok v =>
        refine ⟨es, ?_, hid, ?_, ?_, ?_, ?_, ?_, ?_⟩
        · simpa [makeRequest, hen, hg, hz] using hev
        · intro hne
          simpa [makeRequest, hen, hg, hz] using hself hne
        · intro h
          simpa [makeRequest, hen, hg, hz] using hemp h
        · intro k hk
          simpa [makeRequest, hen, hg, hz] using hoth k hk
        · simpa [makeRequest, hen, hg, hz] using hcnt2
        · intro _
          have := hok v hz
          simpa [makeRequest, hen, hg, hz] using this
        · intro hfalse
          simp [makeRequest, hen, hg, hz] at hfalse
      | error er =>
        refine ⟨es, ?_, hid, ?_, ?_, ?_, ?_, ?_, ?_⟩
        · simpa [makeRequest, hen, hg, hz] using hev
        · intro hne
          simpa [makeRequest, hen, hg, hz] using hself hne
        · intro h
          simpa [makeRequest, hen, hg, hz] using hemp h
        · intro k hk
          simpa [makeRequest, hen, hg, hz] using hoth k hk
        · simpa [makeRequest, hen, hg, hz] using hcnt2
        · intro htrue
          simp [makeRequest, hen, hg, hz] at htrue
        · intro _
          have := herr er hz
          simpa [makeRequest, hen, hg, hz] using this

/-- An endpoint allowing two attempts, breaker enabled with threshold
5. -/
def epTwo : IntegrationEndpoint :=
  ⟨"ep2", "ep2", "external_api", "", 1000, ⟨2, 1000, 30000, 2, false⟩,
   ⟨true, 5, 60000, 300000⟩⟩

/-- A transport that fails on its first invocation and succeeds on the
second. -/
def trFlaky : Nat → Except JsError Nat :=
  fun i => if i = 0 then Except.error ⟨"server error", none, none⟩ else Except.ok 7

/-- Witness for C10: a call against `epTwo` whose first attempt fails
and whose retry succeeds, from an empty log. -/
theorem C10_error_log_per_call_witness :
    countKey st0.log "r1" ≤ 1 ∧
    ∃ es : List IntegrationError,
      ((makeRequest epTwo {} reqC1 "r1" trFlaky (fun _ => 0) 5 st0).2.2.events =
        st0.events ++ es) ∧
      (∀ e ∈ es, e.id = "r1") ∧
      (∀ hne : es ≠ [], logGet (makeRequest epTwo {} reqC1 "r1" trFlaky (fun _ => 0)
        5 st0).2.2.log "r1" = some (es.getLast hne)) ∧
      (es = [] → (makeRequest epTwo {} reqC1 "r1" trFlaky (fun _ => 0) 5 st0).2.2.log =
        st0.log) ∧
      (∀ k, k ≠ "r1" → logGet (makeRequest epTwo {} reqC1 "r1" trFlaky (fun _ => 0)
        5 st0).2.2.log k = logGet st0.log k) ∧
      (countKey (makeRequest epTwo {} reqC1 "r1" trFlaky (fun _ => 0) 5 st0).2.2.log
        "r1" ≤ 1) ∧
      ((makeRequest epTwo {} reqC1 "r1" trFlaky (fun _ => 0) 5 st0).1.success = true →
        es.length + 1 =
          (makeRequest epTwo {} reqC1 "r1" trFlaky (fun _ => 0) 5 st0).1.attempts) ∧
      ((makeRequest epTwo {} reqC1 "r1" trFlaky (fun _ => 0) 5 st0).1.success = false →
        es.length =
          (makeRequest epTwo {} reqC1 "r1" trFlaky (fun _ => 0) 5 st0).1.attempts) :=
  ⟨by decide,
   C10_error_log_per_call epTwo {} reqC1 "r1" trFlaky (fun _ => 0) 5 st0 (by decide)⟩

end Paintbox
